import Mathlib

/-!
Shallow embedding of the two FastAPI backends in this repository
(`BlogAPI` and `FastAPICRUD`) and proofs about their route handlers and
CRUD layers.

The database session is embedded as explicit state: a `List` of records,
in insertion order (the SQLite row order the queries observe, since no
query in the sources carries an `order_by`).  `db.query(...).filter(col ==
v).first()` becomes `List.find?`, `db.add` + `db.commit` becomes appending
to the list, `db.delete` removes the found record.  UUID primary keys are
carried as their canonical string form (the form SQLite stores).  Route
handlers return an `Outcome`: a successful payload, an `HTTPException`
translated to a status code and detail string, or an exception that no
handler catches and that therefore escapes the request.

`utils.py` and `config.py` of BlogAPI are not among the sources; the
identity lookups they export are modelled from the spec (section 4.3),
and password hashing / verification / token creation are taken as
function parameters, so every theorem holds for any implementation of
them.
-/

/-- Result of one request: a payload, a handled `HTTPException`
(status code and detail, as `raise HTTPException(...)` produces), or an
exception that no handler in the sources catches. -/
inductive Outcome (α : Type) where
  | ok (value : α) : Outcome α
  | httpError (statusCode : Nat) (detail : String) : Outcome α
  | unhandled (exn : String) : Outcome α
deriving Repr, DecidableEq

/-- A hexadecimal digit, as `int(s, 16)` accepts in the UUID constructor. -/
def isHexChar (c : Char) : Bool :=
  c.isDigit || ('a' ≤ c && c ≤ 'f') || ('A' ≤ c && c ≤ 'F')

/-- A curly-brace character (written by code point to keep them out of the
source text). -/
def isBraceChar (c : Char) : Bool :=
  c == Char.ofNat 123 || c == Char.ofNat 125

/-- Remove every occurrence of `pat` from the character list, scanning left
to right without rescanning, as `str.replace(pat, "")` does.  The fuel
starts at the list's length, which bounds the number of steps because every
step consumes at least one character. -/
def removeAllAux (pat : List Char) : Nat → List Char → List Char
  | 0, l => l
  | _ + 1, [] => []
  | fuel + 1, c :: cs =>
    if pat ≠ [] ∧ pat.isPrefixOf (c :: cs) then
      removeAllAux pat fuel (List.drop pat.length (c :: cs))
    else
      c :: removeAllAux pat fuel cs

/-- `s.replace(pat, "")` on character lists. -/
def removeAll (pat : String) (l : List Char) : List Char :=
  removeAllAux pat.toList l.length l

/-- Lay 32 hex digits out in the canonical 8-4-4-4-12 hyphenated form that
`str(uuid.UUID(...))` prints and that the SQLite-backed store keeps. -/
def canonicalHex (t : List Char) : String :=
  String.mk (t.take 8 ++ '-' :: (t.drop 8).take 4 ++ '-' :: (t.drop 12).take 4
    ++ '-' :: (t.drop 16).take 4 ++ '-' :: t.drop 20)

/-- `uuid.UUID(s)` as the routes use it: remove `urn:` and `uuid:`, strip
curly braces from both ends, remove hyphens, and require exactly 32
hexadecimal digits; on success the canonical lowercase hyphenated string,
on failure (`ValueError` in the source) `none`. -/
def pyUUID (s : String) : Option String :=
  let cs := removeAll "uuid:" (removeAll "urn:" s.toList)
  let cs := ((cs.dropWhile isBraceChar).reverse.dropWhile isBraceChar).reverse
  let cs := cs.filter fun c => c ≠ '-'
  if cs.length = 32 ∧ cs.all isHexChar then
    some (canonicalHex (cs.map Char.toLower))
  else
    none

/-- A handled duplicate-key failure: HTTP 400, the status the spec's error
taxonomy assigns to Conflict. -/
def isConflict {α : Type} : Outcome α → Bool
  | .httpError 400 _ => true
  | _ => false

namespace BlogAPI

/-- `models.User` of BlogAPI: id (UUID, canonical string), username,
email, optional full name, password hash, active flag, creation time. -/
structure User where
  id : String
  username : String
  email : String
  full_name : Option String
  hashed_password : String
  is_active : Bool
  created_at : Nat
deriving Repr, DecidableEq

/-- `models.Blog` of BlogAPI: id (UUID, canonical string), title, body,
published flag, creation time, optional owning user (`created_by`). -/
structure Blog where
  id : String
  title : String
  body : String
  published : Bool
  created_at : Nat
  created_by : Option String
deriving Repr, DecidableEq

/-- `schemas.UserCreate`: the signup request body (`UserBase` fields,
including the client-settable `is_active` defaulting to true, plus the
plaintext password). -/
structure UserCreate where
  username : String
  email : String
  full_name : Option String
  is_active : Bool
  password : String
deriving Repr, DecidableEq

/-- `schemas.UserResponse`: the public view FastAPI shapes a `User` into;
it has no password-hash field. -/
structure UserResponse where
  id : String
  username : String
  email : String
  full_name : Option String
  is_active : Bool
deriving Repr, DecidableEq

/-- `schemas.LoginRequest`. -/
structure LoginRequest where
  username : String
  password : String
deriving Repr, DecidableEq

/-- `schemas.TokenResponse`. -/
structure TokenResponse where
  access_token : String
  token_type : String
deriving Repr, DecidableEq

/-- `schemas.BlogCreate` (same fields as `BlogBase`). -/
structure BlogCreate where
  title : String
  body : String
  published : Bool
deriving Repr, DecidableEq

/-- FastAPI serializing a `User` through `response_model=UserResponse`:
the declared fields are copied, everything else (the hash, the creation
time) is dropped. -/
def userToResponse (u : User) : UserResponse :=
  { id := u.id, username := u.username, email := u.email
    full_name := u.full_name, is_active := u.is_active }

/-- Modelled from the spec: `utils.get_user_by_username` is not among the
sources; section 4.3 specifies it as a simple equality lookup returning
the user or not-found. -/
def get_user_by_username (users : List User) (username : String) : Option User :=
  users.find? fun u => u.username == username

/-- Modelled from the spec: `utils.get_user_by_email` is not among the
sources; section 4.3 specifies it as a simple equality lookup returning
the user or not-found. -/
def get_user_by_email (users : List User) (email : String) : Option User :=
  users.find? fun u => u.email == email

/-- The `GET /login/` handler of `main.py`.  `verify` stands for
`utils.verify_password` and `mkToken` for `utils.create_access_token`
applied to `str(user.id)` with the configured expiry; both live in files
absent from the sources, so they are parameters.  The handler looks the
user up by username, rejects with 401 when absent, rejects with the
identical 401 when the password does not verify, rejects with 403 when
the user is inactive, and otherwise returns a bearer token. -/
def login (verify : String → String → Bool) (mkToken : String → String)
    (users : List User) (request : LoginRequest) : Outcome TokenResponse :=
  match users.find? (fun u => u.username == request.username) with
  | none => .httpError 401 "Invalid username or password"
  | some user =>
    if ¬ verify request.password user.hashed_password then
      .httpError 401 "Invalid username or password"
    else if ¬ user.is_active then
      .httpError 403 "Inactive user"
    else
      .ok { access_token := mkToken user.id, token_type := "bearer" }

/-- The `POST /signup/` handler of `main.py`.  `hash` stands for
`utils.get_password_hash` and `newId` / `now` for the `uuid.uuid4` and
`datetime.utcnow` column defaults applied at insert.  `commitRaises`
is the storage layer's integrity signal at `db.commit()`: `true` when the
unique constraints reject the insert (the check-then-insert race), in
which case the handler rolls back and reports 400.  The result pairs the
response with the post-state of the user table. -/
def signup (hash : String → String) (newId : String) (now : Nat)
    (users : List User) (user : UserCreate) (commitRaises : Bool) :
    Outcome User × List User :=
  if (get_user_by_username users user.username).isSome then
    (.httpError 400 "Username already registered", users)
  else if (get_user_by_email users user.email).isSome then
    (.httpError 400 "Email already registered", users)
  else
    let db_user : User :=
      { id := newId, username := user.username, email := user.email
        full_name := user.full_name, hashed_password := hash user.password
        is_active := true, created_at := now }
    if commitRaises then
      (.httpError 400 "Username or Email already exists", users)
    else
      (.ok db_user, users ++ [db_user])

/-- `blog_crud.get_blogs`: filter on the published flag, skip `start - 1`
rows, return at most `limit` rows.  The arguments are Python ints, so they
are `Int` here; SQLite clamps a negative OFFSET to zero (`Int.toNat`) and
treats a negative LIMIT as no bound. -/
def blog_crud_get_blogs (blogs : List Blog) (limit start : Int)
    (published : Bool) : List Blog :=
  let filtered := (blogs.filter fun b => b.published == published).drop (start - 1).toNat
  if limit < 0 then filtered else filtered.take limit.toNat

/-- `blog_crud.get_blog`: first row whose id equals `blog_id`. -/
def blog_crud_get_blog (blogs : List Blog) (blog_id : String) : Option Blog :=
  blogs.find? fun b => b.id == blog_id

/-- `blog_crud.create_blog`: insert a row built from the request body;
`newId` and `now` stand for the `uuid.uuid4` and `datetime.utcnow` column
defaults, `created_by` is not set. -/
def blog_crud_create_blog (newId : String) (now : Nat) (blogs : List Blog)
    (blog : BlogCreate) : Blog × List Blog :=
  let db_blog : Blog :=
    { id := newId, title := blog.title, body := blog.body
      published := blog.published, created_at := now, created_by := none }
  (db_blog, blogs ++ [db_blog])

/-- Remove the first row whose id is `i` (what `db.delete` does to the
record `first()` returned). -/
def removeFirstById : List Blog → String → List Blog
  | [], _ => []
  | b :: bs, i => if b.id == i then bs else b :: removeFirstById bs i

/-- `blog_crud.delete_blog`: look the row up; delete it and return `True`
when found, return `False` and leave the table alone otherwise. -/
def blog_crud_delete_blog (blogs : List Blog) (blog_id : String) :
    Bool × List Blog :=
  match blogs.find? (fun b => b.id == blog_id) with
  | some _ => (true, removeFirstById blogs blog_id)
  | none => (false, blogs)

/-- `blog_operations.create_blog`: the second copy of the create path; its
body is line for line the one of `blog_crud.create_blog`. -/
def blog_operations_create_blog (newId : String) (now : Nat)
    (blogs : List Blog) (blog : BlogCreate) : Blog × List Blog :=
  let db_blog : Blog :=
    { id := newId, title := blog.title, body := blog.body
      published := blog.published, created_at := now, created_by := none }
  (db_blog, blogs ++ [db_blog])

/-- The `GET /blogs/` handler of `main.py`: a pass-through to
`blog_crud.get_blogs`. -/
def get_blogs_route (blogs : List Blog) (limit start : Int)
    (published : Bool) : List Blog :=
  blog_crud_get_blogs blogs limit start published

/-- The `GET /blog/-blog_id-/` handler of `main.py`: parse the id as a
UUID (400 on failure), look the blog up (404 when absent), return it. -/
def get_blog_route (blogs : List Blog) (blog_id : String) : Outcome Blog :=
  match pyUUID blog_id with
  | none => .httpError 400 "Invalid blog_id format"
  | some uid =>
    match blog_crud_get_blog blogs uid with
    | none => .httpError 404 "Blog not found"
    | some b => .ok b

/-- The `DELETE /blog/delete/-blog_id-/` handler of `main.py`: parse the
id as a UUID (400 on failure), delegate to `blog_crud.delete_blog`, turn
`False` into 404 and `True` into a success message.  The result pairs the
response with the post-state of the blog table. -/
def delete_blog_route (blogs : List Blog) (blog_id : String) :
    Outcome String × List Blog :=
  match pyUUID blog_id with
  | none => (.httpError 400 "Invalid blog_id format", blogs)
  | some uid =>
    let r := blog_crud_delete_blog blogs uid
    if r.1 then (.ok "Blog deleted successfully", r.2)
    else (.httpError 404 "Blog not found", r.2)

/-- The `GET /user/-user_id-/` handler of `main.py`: parse the id as a
UUID, look the user up by id.  The 400 and 404 detail strings are the
blog-route ones, copied verbatim in the source. -/
def get_user_route (users : List User) (user_id : String) : Outcome User :=
  match pyUUID user_id with
  | none => .httpError 400 "Invalid blog_id format"
  | some uid =>
    match users.find? (fun u => u.id == uid) with
    | none => .httpError 404 "Blog not found"
    | some u => .ok u

end BlogAPI

namespace FastAPICRUD

/-- `models.User` of FastAPICRUD: id (UUID, canonical string), name,
unique email, gender and role (stored as strings; the request schema
constrains them to the enum values before the handler runs). -/
structure User where
  id : String
  name : String
  email : String
  gender : String
  role : String
deriving Repr, DecidableEq

/-- `schemas.UserCreate` of FastAPICRUD. -/
structure UserCreate where
  name : String
  email : String
  gender : String
  role : String
deriving Repr, DecidableEq

/-- `crud.get_user`: first row whose id column equals the given value.
The callers pass the path parameter straight through, so the comparison is
against the raw wire string. -/
def get_user (users : List User) (user_id : String) : Option User :=
  users.find? fun u => u.id == user_id

/-- `crud.create_user` together with the `POST /users/` handler: build the
row and commit.  Neither function has an exception handler, so when the
storage layer rejects the insert at commit (`commitRaises`, the unique
email constraint) the `IntegrityError` escapes the request unhandled; the
uncommitted insert is not in the table. -/
def create_user (newId : String) (users : List User) (user : UserCreate)
    (commitRaises : Bool) : Outcome User × List User :=
  let db_user : User :=
    { id := newId, name := user.name, email := user.email
      gender := user.gender, role := user.role }
  if commitRaises then
    (.unhandled "IntegrityError", users)
  else
    (.ok db_user, users ++ [db_user])

/-- The `GET /users/-user_id-/` handler of `main.py`: no identifier
parsing; `crud.get_user` is applied to the raw path string, and only its
not-found result is mapped (to 404). -/
def read_user (users : List User) (user_id : String) : Outcome User :=
  match get_user users user_id with
  | none => .httpError 404 "User not found"
  | some u => .ok u

end FastAPICRUD

/-! Concrete data for instantiating the theorems.  The hasher, verifier
and token maker below are one admissible instantiation of the parameters
standing for the functions of the absent `utils.py`. -/

/-- A password hasher for concrete instantiations (the identity map is one
admissible hasher for the theorems, which hold for all of them). -/
def demoHash (p : String) : String := p

/-- The verifier matching `demoHash`: plaintext equal to stored digest. -/
def demoVerify (p h : String) : Bool := p == h

/-- A token maker for concrete instantiations. -/
def demoToken (s : String) : String := s

/-- An active stored user whose (demoHash) password is "secret". -/
def demoAlice : BlogAPI.User :=
  { id := "11111111-1111-1111-1111-111111111111", username := "alice"
    email := "alice@example.com", full_name := none
    hashed_password := "secret", is_active := true, created_at := 0 }

/-- An inactive stored user whose (demoHash) password is "secret". -/
def demoBob : BlogAPI.User :=
  { id := "22222222-2222-2222-2222-222222222222", username := "bob"
    email := "bob@example.com", full_name := none
    hashed_password := "secret", is_active := false, created_at := 0 }

/-- A signup request body. -/
def demoUC : BlogAPI.UserCreate :=
  { username := "dora", email := "dora@example.com", full_name := none
    is_active := true, password := "pw" }

/-- A stored blog. -/
def demoBlog : BlogAPI.Blog :=
  { id := "123e4567-e89b-12d3-a456-426614174000", title := "t", body := "b"
    published := true, created_at := 0, created_by := none }

/-- A stored FastAPICRUD user. -/
def demoCUser : FastAPICRUD.User :=
  { id := "33333333-3333-3333-3333-333333333333", name := "carol"
    email := "carol@example.com", gender := "female", role := "user" }

/-- A FastAPICRUD creation request reusing `demoCUser`'s email, so the
unique email constraint fires at commit. -/
def demoCUCreate : FastAPICRUD.UserCreate :=
  { name := "carol2", email := "carol@example.com", gender := "female"
    role := "user" }

/-- C1: a login with a nonexistent username and a login with an existing
username but a wrong password produce the identical InvalidCredentials
failure: HTTP 401 with the same detail string, so the two causes are
indistinguishable to the caller. -/
theorem login_error_indistinguishable (verify : String → String → Bool)
    (mkToken : String → String) (users : List BlogAPI.User)
    (r1 r2 : BlogAPI.LoginRequest) (u : BlogAPI.User)
    (h1 : (users.find? fun x => x.username == r1.username) = none)
    (h2 : (users.find? fun x => x.username == r2.username) = some u)
    (h3 : verify r2.password u.hashed_password = false) :
    BlogAPI.login verify mkToken users r1 =
      .httpError 401 "Invalid username or password" ∧
    BlogAPI.login verify mkToken users r2 =
      .httpError 401 "Invalid username or password" ∧
    BlogAPI.login verify mkToken users r1 =
      BlogAPI.login verify mkToken users r2 := by
  refine ⟨by simp [BlogAPI.login, h1], by simp [BlogAPI.login, h2, h3], ?_⟩
  simp [BlogAPI.login, h1, h2, h3]

/-- Witness for C1 at concrete inputs: the same store answers a ghost
username and a wrong password with equal outcomes. -/
theorem login_error_indistinguishable_witness :
    BlogAPI.login demoVerify demoToken [demoAlice]
        { username := "ghost", password := "x" } =
      BlogAPI.login demoVerify demoToken [demoAlice]
        { username := "alice", password := "wrong" } :=
  (login_error_indistinguishable demoVerify demoToken [demoAlice]
    { username := "ghost", password := "x" }
    { username := "alice", password := "wrong" } demoAlice (by decide)
    (by decide) (by decide)).2.2

/-- C3: an existing user whose password verifies but who is inactive gets
the distinct Forbidden error (403, "Inactive user"), not the 401
InvalidCredentials one; and the inactive check runs only after password
verification, since a failed verification yields 401 even for an inactive
user. -/
theorem login_inactive_forbidden (verify : String → String → Bool)
    (mkToken : String → String) (users : List BlogAPI.User)
    (r : BlogAPI.LoginRequest) (u : BlogAPI.User)
    (hfind : (users.find? fun x => x.username == r.username) = some u)
    (hinactive : u.is_active = false) :
    (verify r.password u.hashed_password = true →
      BlogAPI.login verify mkToken users r = .httpError 403 "Inactive user") ∧
    (verify r.password u.hashed_password = false →
      BlogAPI.login verify mkToken users r =
        .httpError 401 "Invalid username or password") ∧
    (Outcome.httpError 403 "Inactive user" : Outcome BlogAPI.TokenResponse) ≠
      Outcome.httpError 401 "Invalid username or password" := by
  refine ⟨fun hv => ?_, fun hv => ?_, by decide⟩ <;>
    simp [BlogAPI.login, hfind, hv, hinactive]

/-- Witness for C3 at concrete inputs: the inactive user with a correct
password is answered 403. -/
theorem login_inactive_forbidden_witness :
    BlogAPI.login demoVerify demoToken [demoBob]
        { username := "bob", password := "secret" } =
      .httpError 403 "Inactive user" :=
  (login_inactive_forbidden demoVerify demoToken [demoBob]
    { username := "bob", password := "secret" } demoBob (by decide)
    (by decide)).1 (by decide)

/-- C2: when the username or the email is already taken, signup fails with
the Conflict status (400); and when the storage layer raises the integrity
violation at commit time, signup rolls back and reports the same Conflict
status instead of re-raising the raw storage error, leaving the user table
unchanged. -/
theorem signup_storage_conflict (hash : String → String) (newId : String)
    (now : Nat) (users : List BlogAPI.User) (u : BlogAPI.UserCreate)
    (h1 : BlogAPI.get_user_by_username users u.username = none)
    (h2 : BlogAPI.get_user_by_email users u.email = none) :
    BlogAPI.signup hash newId now users u true =
      (.httpError 400 "Username or Email already exists", users) ∧
    (∀ users2 u2 c, (BlogAPI.get_user_by_username users2 u2.username).isSome = true →
      BlogAPI.signup hash newId now users2 u2 c =
        (.httpError 400 "Username already registered", users2)) ∧
    (∀ users2 u2 c, BlogAPI.get_user_by_username users2 u2.username = none →
      (BlogAPI.get_user_by_email users2 u2.email).isSome = true →
      BlogAPI.signup hash newId now users2 u2 c =
        (.httpError 400 "Email already registered", users2)) := by
  refine ⟨by simp [BlogAPI.signup, h1, h2], ?_, ?_⟩
  · intro users2 u2 c h
    simp [BlogAPI.signup, h]
  · intro users2 u2 c ha hb
    simp [BlogAPI.signup, ha, hb]

/-- Witness for C2 at concrete inputs: with both pre-checks clean and the
storage layer raising at commit, the outcome is 400 and the table is the
one the request found. -/
theorem signup_storage_conflict_witness :
    BlogAPI.signup demoHash "id5" 0 [demoAlice] demoUC true =
      (.httpError 400 "Username or Email already exists", [demoAlice]) :=
  (signup_storage_conflict demoHash "id5" 0 [demoAlice] demoUC (by decide)
    (by decide)).1

/-- C6: a successful signup returns the created user, whose public view
(the response model) carries the identifier, username, email, full name
and active flag; the view is independent of the password hash, which has
no field in the response schema. -/
theorem signup_public_view (hash : String → String) (newId : String)
    (now : Nat) (users : List BlogAPI.User) (u : BlogAPI.UserCreate)
    (h1 : BlogAPI.get_user_by_username users u.username = none)
    (h2 : BlogAPI.get_user_by_email users u.email = none) :
    (BlogAPI.signup hash newId now users u false).1 =
      .ok { id := newId, username := u.username, email := u.email
            full_name := u.full_name, hashed_password := hash u.password
            is_active := true, created_at := now } ∧
    BlogAPI.userToResponse
      { id := newId, username := u.username, email := u.email
        full_name := u.full_name, hashed_password := hash u.password
        is_active := true, created_at := now } =
      { id := newId, username := u.username, email := u.email
        full_name := u.full_name, is_active := true } ∧
    (∀ digest : String, BlogAPI.userToResponse
      { id := newId, username := u.username, email := u.email
        full_name := u.full_name, hashed_password := digest
        is_active := true, created_at := now } =
      { id := newId, username := u.username, email := u.email
        full_name := u.full_name, is_active := true }) := by
  refine ⟨by simp [BlogAPI.signup, h1, h2], rfl, fun digest => rfl⟩

/-- Witness for C6 at concrete inputs: the created user is returned and
its response view is hash-free data only. -/
theorem signup_public_view_witness :
    (BlogAPI.signup demoHash "id6" 0 [] demoUC false).1 =
      .ok { id := "id6", username := "dora", email := "dora@example.com"
            full_name := none, hashed_password := "pw", is_active := true
            created_at := 0 } :=
  (signup_public_view demoHash "id6" 0 [] demoUC (by decide) (by decide)).1

/-- C9: signup never reads the client-supplied `is_active` field: two
request bodies differing only there produce identical outcomes and
post-states, and any user a successful signup creates has the active flag
true (the column default). -/
theorem signup_ignores_is_active (hash : String → String) (newId : String)
    (now : Nat) (users : List BlogAPI.User) (u : BlogAPI.UserCreate)
    (a1 a2 : Bool) (c : Bool) :
    BlogAPI.signup hash newId now users { u with is_active := a1 } c =
      BlogAPI.signup hash newId now users { u with is_active := a2 } c ∧
    (∀ created : BlogAPI.User,
      (BlogAPI.signup hash newId now users u c).1 = .ok created →
      created.is_active = true) := by
  constructor
  · cases u
    rfl
  · intro created h
    unfold BlogAPI.signup at h
    split at h
    · exact absurd h (by simp)
    · split at h
      · exact absurd h (by simp)
      · split at h
        · exact absurd h (by simp)
        · simp only [Prod.fst] at h
          cases h
          rfl

/-- Witness for C9 at concrete inputs: flipping `is_active` in the body
changes nothing, and the created user is active. -/
theorem signup_ignores_is_active_witness :
    BlogAPI.signup demoHash "id9" 0 [] { demoUC with is_active := false } false =
      BlogAPI.signup demoHash "id9" 0 [] { demoUC with is_active := true } false ∧
    BlogAPI.User.is_active
      { id := "id9", username := "dora", email := "dora@example.com"
        full_name := none, hashed_password := "pw", is_active := true
        created_at := 0 } = true :=
  ⟨(signup_ignores_is_active demoHash "id9" 0 [] demoUC false true false).1,
   (signup_ignores_is_active demoHash "id9" 0 [] demoUC true true false).2
     { id := "id9", username := "dora", email := "dora@example.com"
       full_name := none, hashed_password := "pw", is_active := true
       created_at := 0 } (by decide)⟩

/-- C4 (amended): in the BlogAPI signup path a uniqueness violation
surfaces as the handled Conflict status (400) with the table unchanged,
whichever check catches it; in the FastAPICRUD create path the commit-time
integrity violation escapes the request unhandled, since neither
`crud.create_user` nor its route has a handler. -/
theorem uniqueness_violation_paths (hash : String → String) (newId : String)
    (now : Nat) (users : List BlogAPI.User) (u : BlogAPI.UserCreate)
    (cid : String) (cusers : List FastAPICRUD.User)
    (cu : FastAPICRUD.UserCreate) :
    isConflict (BlogAPI.signup hash newId now users u true).1 = true ∧
    (BlogAPI.signup hash newId now users u true).2 = users ∧
    FastAPICRUD.create_user cid cusers cu true =
      (.unhandled "IntegrityError", cusers) ∧
    isConflict (FastAPICRUD.create_user cid cusers cu true).1 = false := by
  refine ⟨?_, ?_, rfl, rfl⟩ <;>
    · unfold BlogAPI.signup
      split
      · rfl
      · split
        · rfl
        · rfl

/-- Counterexample to C4 as stated: in the FastAPICRUD variant a
creation request reusing a stored email, with the unique constraint
firing at commit, ends in an unhandled `IntegrityError`, not in a
handled Conflict response. -/
theorem create_user_integrity_escapes :
    FastAPICRUD.create_user "44444444-4444-4444-4444-444444444444"
        [demoCUser] demoCUCreate true =
      (.unhandled "IntegrityError", [demoCUser]) ∧
    isConflict (FastAPICRUD.create_user "44444444-4444-4444-4444-444444444444"
        [demoCUser] demoCUCreate true).1 = false :=
  ⟨rfl, rfl⟩

/-- C5 (amended): the BlogAPI routes that take an identifier parse it as
a UUID and answer 400 before any lookup when it is malformed; the
FastAPICRUD user route does no such validation and hands the raw wire
string to `crud.get_user` for every input. -/
theorem malformed_identifier_paths (blogs : List BlogAPI.Blog)
    (users : List BlogAPI.User) (cusers : List FastAPICRUD.User)
    (s : String) (h : pyUUID s = none) :
    BlogAPI.get_blog_route blogs s = .httpError 400 "Invalid blog_id format" ∧
    BlogAPI.delete_blog_route blogs s =
      (.httpError 400 "Invalid blog_id format", blogs) ∧
    BlogAPI.get_user_route users s = .httpError 400 "Invalid blog_id format" ∧
    (∀ t : String, FastAPICRUD.read_user cusers t =
      match FastAPICRUD.get_user cusers t with
      | none => .httpError 404 "User not found"
      | some u => .ok u) := by
  refine ⟨?_, ?_, ?_, fun t => rfl⟩ <;>
    simp [BlogAPI.get_blog_route, BlogAPI.delete_blog_route,
      BlogAPI.get_user_route, h]

/-- Witness for the amended C5 at concrete inputs: a malformed id is
answered 400 by the BlogAPI blog route. -/
theorem malformed_identifier_paths_witness :
    BlogAPI.get_blog_route [] "zzz" =
      .httpError 400 "Invalid blog_id format" :=
  (malformed_identifier_paths [] [] [] "zzz" (by decide)).1

/-- Counterexample to C5 as stated: the FastAPICRUD user route, given an
identifier that is not UUID-formatted, does not answer 400; the lookup
runs on the raw string and its empty result is answered 404. -/
theorem read_user_skips_validation :
    FastAPICRUD.read_user [] "not-a-uuid" = .httpError 404 "User not found" ∧
    pyUUID "not-a-uuid" = none ∧
    isConflict (FastAPICRUD.read_user [] "not-a-uuid") = false :=
  ⟨rfl, by decide, rfl⟩

/-- Under the primary-key invariant (pairwise-distinct ids), deleting the
first row with a given id is the same as filtering every row with that id
out. -/
theorem removeFirstById_eq_filter (blogs : List BlogAPI.Blog) (i : String)
    (h : (blogs.map BlogAPI.Blog.id).Nodup) :
    BlogAPI.removeFirstById blogs i = blogs.filter fun b => ! (b.id == i) := by
  induction blogs with
  | nil => rfl
  | cons b bs ih =>
    rw [List.map_cons, List.nodup_cons] at h
    obtain ⟨hb, hbs⟩ := h
    by_cases hc : b.id == i
    · have hbi : b.id = i := by simpa using hc
      have hrest : List.filter (fun x => ! (x.id == i)) bs = bs := by
        rw [List.filter_eq_self]
        intro x hx
        have hxi : x.id ≠ i := fun hxe =>
          hb (hbi ▸ hxe ▸ List.mem_map_of_mem BlogAPI.Blog.id hx)
        simpa using hxi
      simp [BlogAPI.removeFirstById, hc, List.filter_cons, hrest]
    · rw [BlogAPI.removeFirstById, if_neg hc, List.filter_cons]
      have hc2 : (! (b.id == i)) = true := by
        simpa using hc
      rw [if_pos hc2, ih hbs]

/-- C7: deleting a blog id that is absent returns `False` (the route
answers 404) and leaves the table alone; deleting a present id returns
`True` (the route answers with the success message), removes exactly the
rows carrying that id — under the primary-key invariant, that one record —
and a subsequent get by the same id finds nothing. -/
theorem delete_blog_behaviour (blogs : List BlogAPI.Blog) (sid uid : String)
    (hid : pyUUID sid = some uid)
    (hnodup : (blogs.map BlogAPI.Blog.id).Nodup) :
    (BlogAPI.blog_crud_get_blog blogs uid = none →
      BlogAPI.blog_crud_delete_blog blogs uid = (false, blogs) ∧
      BlogAPI.delete_blog_route blogs sid =
        (.httpError 404 "Blog not found", blogs)) ∧
    ((BlogAPI.blog_crud_get_blog blogs uid).isSome = true →
      (BlogAPI.blog_crud_delete_blog blogs uid).1 = true ∧
      (BlogAPI.blog_crud_delete_blog blogs uid).2 =
        blogs.filter (fun b => ! (b.id == uid)) ∧
      BlogAPI.blog_crud_get_blog
        (BlogAPI.blog_crud_delete_blog blogs uid).2 uid = none ∧
      (BlogAPI.delete_blog_route blogs sid).1 =
        .ok "Blog deleted successfully") := by
  constructor
  · intro h
    rw [BlogAPI.blog_crud_get_blog] at h
    have hdel : BlogAPI.blog_crud_delete_blog blogs uid = (false, blogs) := by
      rw [BlogAPI.blog_crud_delete_blog, h]
    refine ⟨hdel, ?_⟩
    rw [BlogAPI.delete_blog_route, hid]
    simp [hdel]
  · intro h
    rw [BlogAPI.blog_crud_get_blog] at h
    obtain ⟨b, hb⟩ := Option.isSome_iff_exists.mp h
    have hdel : BlogAPI.blog_crud_delete_blog blogs uid =
        (true, BlogAPI.removeFirstById blogs uid) := by
      rw [BlogAPI.blog_crud_delete_blog, hb]
    have hfilter := removeFirstById_eq_filter blogs uid hnodup
    refine ⟨by rw [hdel], by rw [hdel]; exact hfilter, ?_, ?_⟩
    · rw [hdel, BlogAPI.blog_crud_get_blog, hfilter]
      rw [List.find?_eq_none]
      intro x hx
      have := List.of_mem_filter hx
      simpa using this
    · rw [BlogAPI.delete_blog_route, hid]
      simp [hdel]

/-- Witness for C7 at concrete inputs: after deleting the stored blog by
its own id, a get by that id finds nothing. -/
theorem delete_blog_behaviour_witness :
    BlogAPI.blog_crud_get_blog
      (BlogAPI.blog_crud_delete_blog [demoBlog]
        "123e4567-e89b-12d3-a456-426614174000").2
      "123e4567-e89b-12d3-a456-426614174000" = none :=
  ((delete_blog_behaviour [demoBlog]
    "123e4567-e89b-12d3-a456-426614174000"
    "123e4567-e89b-12d3-a456-426614174000" (by decide) (by decide)).2
    (by decide)).2.2.1

/-- C8: listing with limit 10, start 1, published true returns at most 10
rows, every one published, equal to the first 10 of the published rows
after skipping `start - 1 = 0` of them, and in a sublist of the table --
insertion order preserved. -/
theorem get_blogs_default_listing (blogs : List BlogAPI.Blog) :
    (BlogAPI.blog_crud_get_blogs blogs 10 1 true).length ≤ 10 ∧
    ((BlogAPI.blog_crud_get_blogs blogs 10 1 true).all
      fun b => b.published == true) = true ∧
    BlogAPI.blog_crud_get_blogs blogs 10 1 true =
      ((blogs.filter fun b => b.published == true).drop (1 - 1)).take 10 ∧
    (BlogAPI.blog_crud_get_blogs blogs 10 1 true).Sublist blogs := by
  have h3 : BlogAPI.blog_crud_get_blogs blogs 10 1 true =
      ((blogs.filter fun b => b.published == true).drop (1 - 1)).take 10 := rfl
  refine ⟨?_, ?_, h3, ?_⟩
  · rw [h3]
    exact List.length_take_le 10 _
  · rw [h3, List.all_eq_true]
    intro b hb
    have hmem : b ∈ blogs.filter fun x => x.published == true :=
      List.drop_subset _ _ (List.take_subset _ _ hb)
    have hpub := List.of_mem_filter hmem
    simpa using hpub
  · rw [h3]
    exact ((List.take_sublist _ _).trans (List.drop_sublist _ _)).trans
      (List.filter_sublist _)

/-- C10: in both copies of the create path the inserted blog's
`created_by` reference is unset, and the two copies agree row for row. -/
theorem create_blog_unowned (newId : String) (now : Nat)
    (blogs : List BlogAPI.Blog) (b : BlogAPI.BlogCreate) :
    (BlogAPI.blog_crud_create_blog newId now blogs b).1.created_by = none ∧
    (BlogAPI.blog_operations_create_blog newId now blogs b).1.created_by = none ∧
    BlogAPI.blog_crud_create_blog newId now blogs b =
      BlogAPI.blog_operations_create_blog newId now blogs b :=
  ⟨rfl, rfl, rfl⟩
